import Mathlib

/-
Verification of the streaming proxy and session-multiplexing layer of the
secure-azureai-agent repository.

Shallow embedding of:
  - src/backend/src/agents/azure_troubleshoot_agent.py
      (AzureTroubleshootAgent.process_message_stream, the session dict)
  - src/backend/src/main.py (startup_event, health_check, chat_stream)
  - src/app.py (ProxyMiddleware.dispatch request classification)

Conventions: Python str becomes String; the session dict becomes an
association list with unique keys; a raised exception becomes an explicit
Exn value; the lazy async generator consumed by the handler becomes the
list of items it produced before (graceful or exceptional) termination.
-/

/-- Conversation state of one session (spec: Thread, ordered sequence of
messages).  The source treats `ChatHistoryAgentThread` opaquely; we model it
as the list of message texts it has accumulated. -/
abbrev Thread := List String

/-- Trace payload attached to a completion frame (source: the dict returned
by `TraceCollector.get_current_trace`); its internal shape is irrelevant to
every claim, so it is a list of entries. -/
abbrev TraceInfo := List String

/-- The `self.sessions : Dict[str, ChatHistoryAgentThread]` field
(azure_troubleshoot_agent.py line 99), as an association list with unique
keys. -/
abbrev SessionStore := List (String × Thread)

/-- Python `self.sessions.get(session_id)` (line 511). -/
def SessionStore.get (s : SessionStore) (sid : String) : Option Thread :=
  match s.find? (fun p => p.fst == sid) with
  | some p => some p.snd
  | none => none

/-- Python `self.sessions[session_id] = thread` (line 700): replace any
previous binding for the key. -/
def SessionStore.put (s : SessionStore) (sid : String) (t : Thread) : SessionStore :=
  (sid, t) :: s.filter (fun p => p.fst != sid)

/-- One wire-level event of the stream: the dict yielded by
`process_message_stream`, serialized by main.py as `StreamChatResponse`
(main.py lines 83-88). -/
structure StreamFrame where
  content : String
  session_id : String
  is_done : Bool
  mode : String
  trace : Option TraceInfo
deriving DecidableEq

/-- A Python exception as observed by the handlers: whether it is a
`ConnectionError` (the outer handler treats that class specially,
lines 721-731) and its `str(e)` text. -/
structure Exn where
  isConnectionError : Bool
  msg : String
deriving DecidableEq

/-- One response object produced by `simple_ai_assistant.invoke_stream`
(line 663): it may carry truthy `content` and may carry a `thread`
attribute (lines 664-674). -/
structure ChatItem where
  content : Option String
  thread : Option Thread
deriving DecidableEq

/-- The full consumption of one `invoke_stream` call: the items produced
before termination, and the exception (if any) that ended the iteration. -/
structure ChatStreamResult where
  items : List ChatItem
  exn : Option Exn
deriving DecidableEq

/-- The outcome of the agent-mode block (lines 577-632): an exception before
any frame is yielded, a run with `status == "failed"`, an exception after
some assistant messages were yielded, or normal completion. -/
inductive AgentRunResult where
  | exnEarly (e : Exn)
  | runFailed (lastError : String)
  | exnLate (msgs : List String) (e : Exn)
  | ok (msgs : List String)
deriving DecidableEq

/-- The fields of the `AzureTroubleshootAgent` object consulted by
`process_message_stream`: whether `self.ai_service`,
`self.simple_ai_assistant` and `self.has_foundry_agent` are set. -/
structure AgentFields where
  aiService : Bool
  simpleAiAssistant : Bool
  hasFoundryAgent : Bool
deriving DecidableEq

/-- The external nondeterminism of one request: the `USE_AZURE_AI_AGENT`
environment flag read at line 520, the value of `str(uuid.uuid4())`
(line 498), whether the `ChatCompletionAgent` construction at line 651
raises, the upstream generators, and the value of
`trace_collector.get_current_trace()` at completion (line 715). -/
structure ReqExt where
  useAzureAiAgent : Bool
  freshId : String
  createAssistantExn : Option Exn
  chatRun : Thread → String → ChatStreamResult
  agentRun : String → AgentRunResult
  traceResult : Option TraceInfo

/- Diagnostic message texts, verbatim from the source. -/

/-- Lines 522-540: agent mode requested but the feature flag is off. -/
def agentModeDisabledMsg : String :=
  "🤖 **エージェントモードが無効です**\n\nエージェントモードを使用するには、以下の設定が必要です：\n\n**環境変数の設定:**\n- `USE_AZURE_AI_AGENT=true` を設定してください\n- `PROJECT_ENDPOINT` - AI Foundryプロジェクトのエンドポイント\n- `FOUNDARY_TECHNICAL_SUPPORT_AGENT_ID` - FoundryエージェントID\n\n**現在の状況:**\n- エージェントモードフラグ: 無効 ❌\n- 基本のチャット機能は利用可能です 💬\n\n**対処方法:**\n1. システム管理者に環境変数の設定を依頼してください\n2. 設定後、アプリケーションを再起動してください\n3. または、チャットモードで基本的なAI機能をご利用ください\n\n詳細は管理者向けドキュメントをご確認ください。"

/-- Lines 552-564: agent mode on but no AI Foundry agent. -/
def agentNotInitMsg : String :=
  "🔒 **エージェントが初期化されていません**\n\nエージェント機能の初期化に問題があります。以下の可能性があります：\n\n**考えられる原因:**\n- AI Foundryプロジェクトとの接続エラー\n- エージェント設定の不備\n- ネットワーク接続の問題\n\n**対処方法:**\n1. チャットモードに切り替えて基本機能をご利用ください\n2. システム管理者にエージェント設定の確認を依頼してください\n3. しばらく時間をおいてから再度お試しください"

/-- Line 596. -/
def agentRunFailedMsg (lastError : String) : String :=
  "🤖 エージェント実行エラー: " ++ lastError

/-- Line 624. -/
def agentCommErrorMsg (e : String) : String :=
  "🤖 エージェント通信エラー: " ++ e

/-- Line 641. -/
def chatServiceNotInitMsg : String :=
  "🔒 Chat service not initialized"

/-- Line 679: the single message used for every exception caught while
consuming `invoke_stream` in chat mode. -/
def chatModeErrorMsg (e : String) : String :=
  "チャットモードでエラーが発生しました: " ++ e

/-- Line 688. -/
def invalidModeMsg (mode : String) : String :=
  "無効なモード: " ++ mode ++ ". \x27chat\x27 または \x27agent\x27 を使用してください。"

/-- Line 723: outer handler message for a `ConnectionError`. -/
def connectionErrorMsg (e : String) : String :=
  "🔒 接続エラー: Azure OpenAIサービスへの接続に失敗しました。これは閉域化設定（Private Endpoint）によるネットワーク制限が原因の可能性があります。システム管理者にネットワーク設定をご確認ください。詳細: " ++ e

/-- Python `pat in s` substring test on char lists. -/
def hasSubstring : List Char → List Char → Bool
  | [], pat => pat.isEmpty
  | c :: rest, pat => List.isPrefixOf pat (c :: rest) || hasSubstring rest pat

/-- Python `pat in s` on strings. -/
def pyIn (pat s : String) : Bool :=
  hasSubstring s.data pat.data

/-- Python `s.lower()` (ASCII range, which covers every keyword the source
searches for). -/
def pyLower (s : String) : String :=
  ⟨List.map Char.toLower s.data⟩

/-- Line 735 keyword list. -/
def connectivityKeywords : List String :=
  ["connection", "network", "timeout", "unreachable", "forbidden", "403", "404", "dns"]

/-- Line 738 keyword list. -/
def agentKeywords : List String :=
  ["agent", "foundry", "project"]

/-- Lines 733-743: the outer handler classification of a generic exception
by keyword search over `str(e).lower()`. -/
def classifyError (e : String) (mode : String) : String :=
  let es := pyLower e
  if connectivityKeywords.any (fun k => pyIn k es) then
    "🔒 接続エラー: Azure OpenAIサービスへの接続に問題があります。これは閉域化設定やネットワーク制限が原因の可能性があります。システム管理者にネットワーク設定をご確認ください。詳細: " ++ e
  else if mode == "agent" && agentKeywords.any (fun k => pyIn k es) then
    "🤖 エージェントモードエラー: AI Foundryエージェントとの接続に問題があります。エージェント設定を確認してください。詳細: " ++ e
  else
    "エラー: " ++ e

/-- Lines 721-751: the outer `except` ladder — `ConnectionError` gets its
own message, every other exception goes through `classifyError`. -/
def outerErrorMsg (e : Exn) (mode : String) : String :=
  if e.isConnectionError then connectionErrorMsg e.msg else classifyError e.msg mode

/-- Lines 497-498: `if session_id is None: session_id = str(uuid.uuid4())`.
Note only `None` is replaced; an empty string is kept as-is. -/
def resolveSessionId : Option String → String → String
  | none, freshId => freshId
  | some s, _ => s

/-- Lines 510-513: `thread = self.sessions.get(session_id)` followed by
`if thread is None: thread = ChatHistoryAgentThread()`. -/
def sessionThread (store : SessionStore) (sid : String) : Thread :=
  (SessionStore.get store sid).getD []

/-- A frame yielded as a plain dict (no trace key). -/
def mkFrame (c sid : String) (d : Bool) (m : String) : StreamFrame :=
  ⟨c, sid, d, m, none⟩

/-- Lines 706-719: the completion frame; trace attached only when the
collector exists (`enable_trace and mode == "agent"`, line 507) and
`get_current_trace()` returned something. -/
def completionFrame (traceResult : Option TraceInfo) (sid mode : String)
    (enableTrace : Bool) : StreamFrame :=
  ⟨"", sid, true, mode, if enableTrace && mode == "agent" then traceResult else none⟩

/-- Lines 663-671: each response with truthy `content` becomes one
non-terminal frame. -/
def chatFrames (items : List ChatItem) (sid mode : String) : List StreamFrame :=
  items.filterMap (fun it =>
    match it.content with
    | some c => if c == "" then none else some (mkFrame c sid false mode)
    | none => none)

/-- Lines 673-674: `if hasattr(response, thread): thread = response.thread`
folded over the items actually consumed. -/
def chatFinalThread (items : List ChatItem) (t0 : Thread) : Thread :=
  items.foldl (fun t it => it.thread.getD t) t0

/-- The result of one full request to `process_message_stream`: the frames
yielded, the session store afterwards, and whether control reached the
post-streaming block at line 698 (generation completed successfully). -/
structure StreamOutcome where
  frames : List StreamFrame
  store : SessionStore
  completed : Bool
deriving DecidableEq

/-- Lines 516-632: the agent-mode block. -/
def agentBranch (a : AgentFields) (ext : ReqExt) (store : SessionStore) (thread : Thread)
    (message sid mode : String) (enableTrace : Bool) : StreamOutcome :=
  if !ext.useAzureAiAgent then
    ⟨[mkFrame agentModeDisabledMsg sid true mode], store, false⟩
  else if !a.hasFoundryAgent then
    ⟨[mkFrame agentNotInitMsg sid true mode], store, false⟩
  else
    match ext.agentRun message with
    | .exnEarly e =>
        ⟨[mkFrame (agentCommErrorMsg e.msg) sid true mode], store, false⟩
    | .runFailed le =>
        ⟨[mkFrame (agentRunFailedMsg le) sid true mode], store, false⟩
    | .exnLate msgs e =>
        ⟨(msgs.map (fun c => mkFrame c sid false mode))
          ++ [mkFrame (agentCommErrorMsg e.msg) sid true mode], store, false⟩
    | .ok msgs =>
        ⟨(msgs.map (fun c => mkFrame c sid false mode))
          ++ [completionFrame ext.traceResult sid mode enableTrace],
         SessionStore.put store sid thread, true⟩

/-- Lines 662-684 plus 698-719: consuming `invoke_stream`; on an exception
the inner handler yields the fixed chat-mode message and returns without
storing; on exhaustion the final thread is stored and the completion frame
is yielded. -/
def chatConsume (ext : ReqExt) (store : SessionStore) (thread : Thread)
    (message sid mode : String) (enableTrace : Bool) : StreamOutcome :=
  match (ext.chatRun thread message).exn with
  | some e =>
      ⟨chatFrames (ext.chatRun thread message).items sid mode
         ++ [mkFrame (chatModeErrorMsg e.msg) sid true mode], store, false⟩
  | none =>
      ⟨chatFrames (ext.chatRun thread message).items sid mode
         ++ [completionFrame ext.traceResult sid mode enableTrace],
       SessionStore.put store sid
         (chatFinalThread (ext.chatRun thread message).items thread), true⟩

/-- Lines 634-660: the chat-mode block.  If `simple_ai_assistant` is absent
it is created on the fly, which needs `ai_service` and may itself raise —
that exception escapes to the outer handler. -/
def chatBranch (a : AgentFields) (ext : ReqExt) (store : SessionStore) (thread : Thread)
    (message sid mode : String) (enableTrace : Bool) : StreamOutcome :=
  if a.simpleAiAssistant then
    chatConsume ext store thread message sid mode enableTrace
  else if !a.aiService then
    ⟨[mkFrame chatServiceNotInitMsg sid true mode], store, false⟩
  else
    match ext.createAssistantExn with
    | some e => ⟨[mkFrame (outerErrorMsg e mode) sid true mode], store, false⟩
    | none => chatConsume ext store thread message sid mode enableTrace

/-- `AzureTroubleshootAgent.process_message_stream` (lines 485-751) as a
big-step function from one request to the frames yielded and the updated
session store. -/
def processMessageStream (a : AgentFields) (ext : ReqExt) (store : SessionStore)
    (message : String) (sessionId : Option String) (mode : String)
    (enableTrace : Bool) : StreamOutcome :=
  if mode == "agent" then
    agentBranch a ext store
      (sessionThread store (resolveSessionId sessionId ext.freshId)) message
      (resolveSessionId sessionId ext.freshId) mode enableTrace
  else if mode == "chat" then
    chatBranch a ext store
      (sessionThread store (resolveSessionId sessionId ext.freshId)) message
      (resolveSessionId sessionId ext.freshId) mode enableTrace
  else
    ⟨[mkFrame (invalidModeMsg mode) (resolveSessionId sessionId ext.freshId) true mode],
     store, false⟩

/- ===== Backend HTTP surface, src/backend/src/main.py ===== -/

/-- The request body of `POST /chat/stream` (main.py lines 77-81). -/
structure ChatRequest where
  message : String
  session_id : Option String
  mode : String
  enable_trace : Bool
deriving DecidableEq

/-- Main.py line 153: the `detail` of the HTTP 500 raised when the global
`agent` is `None`. -/
def agentNotInitDetail : String :=
  "🔒 サービスが初期化されていません。Azure OpenAIサービスへの接続に問題がある可能性があります。これは閉域化設定（Private Endpoint）によるネットワーク制限が原因の可能性があります。システム管理者にネットワーク設定をご確認ください。"

/-- The outcome of `agent.initialize()` (azure_troubleshoot_agent.py lines
131-235): success with the resulting object fields, or an exception
together with the fields as mutated up to the failure point.  The global
`agent` is assigned before `initialize()` is awaited (main.py lines
120-121), so on failure the constructed object survives with those
fields. -/
inductive InitOutcome where
  | ok (fields : AgentFields)
  | failed (e : Exn) (fields : AgentFields)
deriving DecidableEq

/-- Main.py `startup_event` (lines 93-131): a missing required environment
variable raises before the agent object is constructed (caught, so the
process still starts and `agent` stays `None`); any `initialize()` failure
is caught too, leaving the already-assigned agent object in place. -/
def startup_event (apiKeyPresent endpointPresent : Bool)
    (init : InitOutcome) : Option AgentFields :=
  if !apiKeyPresent || !endpointPresent then none
  else
    match init with
    | .ok f => some f
    | .failed _ f => some f

/-- The JSON body of `GET /health` (main.py lines 133-147); the
`agent_initialized` key is modelled by `agentUp`. -/
structure HealthStatus where
  status : String
  agentUp : Bool
deriving DecidableEq

/-- Main.py `health_check` (lines 133-147): total, never raises. -/
def health_check (agent : Option AgentFields) : HealthStatus :=
  match agent with
  | some _ => ⟨"healthy", true⟩
  | none => ⟨"degraded", false⟩

/-- The response of `POST /chat/stream`: either an `HTTPException` turned
into an HTTP error status, or the event stream of frames. -/
inductive ChatStreamResponse where
  | httpError (status : Nat) (detail : String)
  | stream (frames : List StreamFrame)
deriving DecidableEq

/-- Whether the response is a streaming (text/event-stream) response. -/
def ChatStreamResponse.isStream : ChatStreamResponse → Bool
  | .stream _ => true
  | .httpError _ _ => false

/-- Main.py `chat_stream` (lines 149-203): rejects with HTTP 500 when the
global agent is `None`, otherwise streams the frames produced by
`process_message_stream` (the `generate` wrapper re-serializes each chunk
unchanged; its own `except` never fires because the agent generator
catches every exception internally). -/
def chat_stream (agent : Option AgentFields) (ext : ReqExt)
    (store : SessionStore) (req : ChatRequest) : ChatStreamResponse × SessionStore :=
  match agent with
  | none => (.httpError 500 agentNotInitDetail, store)
  | some a =>
      let out := processMessageStream a ext store req.message req.session_id
        req.mode req.enable_trace
      (.stream out.frames, out.store)

/- ===== Request routing, src/app.py ProxyMiddleware.dispatch ===== -/

/-- Python `s.startswith(p)`. -/
def pyStartswith (s p : String) : Bool :=
  List.isPrefixOf p.data s.data

/-- The four routing outcomes of `ProxyMiddleware.dispatch`
(app.py lines 123-160). -/
inductive RouteClass where
  | apiPassthrough
  | chatStreamPassthrough
  | websocketForward
  | bufferedProxy
deriving DecidableEq

/-- App.py lines 129-160: the classification of an inbound request by path
and `Upgrade` header.  The source merges the API prefixes and the literal
`/chat/stream` equality into one `if` whose branches are disjoint (no API
prefix matches `/chat/stream`), so splitting them into two route classes
is behavior-preserving. -/
def classifyRequest (path : String) (upgradeHeader : String) : RouteClass :=
  if pyStartswith path "/api/" || pyStartswith path "/health" ||
     pyStartswith path "/docs" || pyStartswith path "/openapi.json" ||
     pyStartswith path "/test-" then
    RouteClass.apiPassthrough
  else if path == "/chat/stream" then
    RouteClass.chatStreamPassthrough
  else if pyStartswith path "/ws" || pyStartswith path "/chat/ws" ||
     pyIn "websocket" (pyLower upgradeHeader) then
    RouteClass.websocketForward
  else
    RouteClass.bufferedProxy

/- ===== Shared invariants of the stream generator ===== -/

/-- Every outcome of `process_message_stream` has this shape: a (possibly
empty) prefix of non-terminal frames followed by exactly one terminal
frame; the store is untouched unless the generation completed, in which
case exactly the session key is replaced. -/
def OutcomeInv (out : StreamOutcome) (store : SessionStore) (sid : String)
    (tr : Option TraceInfo) (mode : String) (enableTrace : Bool) : Prop :=
  (∃ pre last, out.frames = pre ++ [last]
    ∧ (∀ f ∈ pre, f.is_done = false ∧ f.session_id = sid ∧ f.mode = mode)
    ∧ last.is_done = true ∧ last.session_id = sid ∧ last.mode = mode
    ∧ (out.completed = true → last = completionFrame tr sid mode enableTrace))
  ∧ (out.completed = false → out.store = store)
  ∧ (out.completed = true → ∃ t, out.store = SessionStore.put store sid t)

lemma mapFrames_mem (msgs : List String) (sid mode : String) :
    ∀ f ∈ msgs.map (fun c => mkFrame c sid false mode),
      f.is_done = false ∧ f.session_id = sid ∧ f.mode = mode := by
  intro f hf
  simp only [List.mem_map] at hf
  obtain ⟨c, _, rfl⟩ := hf
  exact ⟨rfl, rfl, rfl⟩

lemma chatFrames_mem (items : List ChatItem) (sid mode : String) :
    ∀ f ∈ chatFrames items sid mode,
      f.is_done = false ∧ f.session_id = sid ∧ f.mode = mode := by
  intro f hf
  simp only [chatFrames, List.mem_filterMap] at hf
  obtain ⟨it, _, hit⟩ := hf
  cases hc : it.content with
  | none => rw [hc] at hit; exact absurd hit (by simp)
  | some c =>
      rw [hc] at hit
      by_cases hce : (c == "") = true
      · exact absurd hit (by simp [hce])
      · have hs : some (mkFrame c sid false mode) = some f := by
          simpa [hce] using hit
        cases hs
        exact ⟨rfl, rfl, rfl⟩

lemma OutcomeInv_fail (pre : List StreamFrame) (c : String) (store : SessionStore)
    (sid : String) (tr : Option TraceInfo) (mode : String) (et : Bool)
    (hpre : ∀ f ∈ pre, f.is_done = false ∧ f.session_id = sid ∧ f.mode = mode) :
    OutcomeInv ⟨pre ++ [mkFrame c sid true mode], store, false⟩ store sid tr mode et := by
  refine ⟨⟨pre, mkFrame c sid true mode, rfl, hpre, rfl, rfl, rfl, by simp⟩,
    fun _ => rfl, by simp⟩

lemma OutcomeInv_ok (pre : List StreamFrame) (t : Thread) (store : SessionStore)
    (sid : String) (tr : Option TraceInfo) (mode : String) (et : Bool)
    (hpre : ∀ f ∈ pre, f.is_done = false ∧ f.session_id = sid ∧ f.mode = mode) :
    OutcomeInv ⟨pre ++ [completionFrame tr sid mode et],
      SessionStore.put store sid t, true⟩ store sid tr mode et := by
  refine ⟨⟨pre, completionFrame tr sid mode et, rfl, hpre, rfl, rfl, rfl,
    fun _ => rfl⟩, by simp, fun _ => ⟨t, rfl⟩⟩

lemma nilFrames_mem (sid mode : String) :
    ∀ f ∈ ([] : List StreamFrame),
      f.is_done = false ∧ f.session_id = sid ∧ f.mode = mode := by
  intro f hf
  exact absurd hf (by simp)

lemma agentBranch_inv (a : AgentFields) (ext : ReqExt) (store : SessionStore)
    (thread : Thread) (message sid mode : String) (enableTrace : Bool) :
    OutcomeInv (agentBranch a ext store thread message sid mode enableTrace)
      store sid ext.traceResult mode enableTrace := by
  unfold agentBranch
  cases hU : ext.useAzureAiAgent with
  | false =>
      exact OutcomeInv_fail [] agentModeDisabledMsg store sid _ mode _
        (nilFrames_mem sid mode)
  | true =>
      cases hF : a.hasFoundryAgent with
      | false =>
          exact OutcomeInv_fail [] agentNotInitMsg store sid _ mode _
            (nilFrames_mem sid mode)
      | true =>
          simp only [Bool.not_true, Bool.false_eq_true, if_false]
          cases hR : ext.agentRun message with
          | exnEarly e =>
              exact OutcomeInv_fail [] (agentCommErrorMsg e.msg) store sid _ mode _
                (nilFrames_mem sid mode)
          | runFailed le =>
              exact OutcomeInv_fail [] (agentRunFailedMsg le) store sid _ mode _
                (nilFrames_mem sid mode)
          | exnLate msgs e =>
              exact OutcomeInv_fail (msgs.map (fun c => mkFrame c sid false mode))
                (agentCommErrorMsg e.msg) store sid _ mode _
                (mapFrames_mem msgs sid mode)
          | ok msgs =>
              exact OutcomeInv_ok (msgs.map (fun c => mkFrame c sid false mode))
                thread store sid _ mode _ (mapFrames_mem msgs sid mode)

lemma chatConsume_inv (ext : ReqExt) (store : SessionStore) (thread : Thread)
    (message sid mode : String) (enableTrace : Bool) :
    OutcomeInv (chatConsume ext store thread message sid mode enableTrace)
      store sid ext.traceResult mode enableTrace := by
  unfold chatConsume
  cases hE : (ext.chatRun thread message).exn with
  | some e =>
      exact OutcomeInv_fail (chatFrames (ext.chatRun thread message).items sid mode)
        (chatModeErrorMsg e.msg) store sid _ mode _ (chatFrames_mem _ sid mode)
  | none =>
      exact OutcomeInv_ok (chatFrames (ext.chatRun thread message).items sid mode)
        (chatFinalThread (ext.chatRun thread message).items thread) store sid _ mode _
        (chatFrames_mem _ sid mode)

lemma chatBranch_inv (a : AgentFields) (ext : ReqExt) (store : SessionStore)
    (thread : Thread) (message sid mode : String) (enableTrace : Bool) :
    OutcomeInv (chatBranch a ext store thread message sid mode enableTrace)
      store sid ext.traceResult mode enableTrace := by
  unfold chatBranch
  cases hS : a.simpleAiAssistant with
  | true =>
      simp only [if_true]
      exact chatConsume_inv ext store thread message sid mode enableTrace
  | false =>
      cases hA : a.aiService with
      | false =>
          exact OutcomeInv_fail [] chatServiceNotInitMsg store sid _ mode _
            (nilFrames_mem sid mode)
      | true =>
          simp only [Bool.not_true, Bool.false_eq_true, if_false]
          cases hC : ext.createAssistantExn with
          | some e =>
              exact OutcomeInv_fail [] (outerErrorMsg e mode) store sid _ mode _
                (nilFrames_mem sid mode)
          | none =>
              exact chatConsume_inv ext store thread message sid mode enableTrace

lemma process_inv (a : AgentFields) (ext : ReqExt) (store : SessionStore)
    (message : String) (sessionId : Option String) (mode : String)
    (enableTrace : Bool) :
    OutcomeInv (processMessageStream a ext store message sessionId mode enableTrace)
      store (resolveSessionId sessionId ext.freshId) ext.traceResult mode
      enableTrace := by
  unfold processMessageStream
  by_cases hA : mode == "agent"
  · simp only [hA, if_true]
    exact agentBranch_inv a ext store _ message _ mode enableTrace
  · simp only [hA, Bool.false_eq_true, if_false]
    by_cases hC : mode == "chat"
    · simp only [hC, if_true]
      exact chatBranch_inv a ext store _ message _ mode enableTrace
    · simp only [hC, Bool.false_eq_true, if_false]
      exact OutcomeInv_fail [] (invalidModeMsg mode) store
        (resolveSessionId sessionId ext.freshId) _ mode _
        (nilFrames_mem (resolveSessionId sessionId ext.freshId) mode)

/- ===== Store lemmas and mode-dispatch reductions ===== -/

lemma get_put (store : SessionStore) (sid : String) (t : Thread) :
    SessionStore.get (SessionStore.put store sid t) sid = some t := by
  simp [SessionStore.get, SessionStore.put, List.find?]

lemma sessionThread_put (store : SessionStore) (sid : String) (t : Thread) :
    sessionThread (SessionStore.put store sid t) sid = t := by
  simp [sessionThread, get_put]

lemma process_agent_eq (a : AgentFields) (ext : ReqExt) (store : SessionStore)
    (message : String) (sessionId : Option String) (enableTrace : Bool) :
    processMessageStream a ext store message sessionId "agent" enableTrace
      = agentBranch a ext store
          (sessionThread store (resolveSessionId sessionId ext.freshId)) message
          (resolveSessionId sessionId ext.freshId) "agent" enableTrace := by
  unfold processMessageStream
  rw [if_pos (by decide : (("agent" : String) == "agent") = true)]

lemma process_chat_eq (a : AgentFields) (ext : ReqExt) (store : SessionStore)
    (message : String) (sessionId : Option String) (enableTrace : Bool) :
    processMessageStream a ext store message sessionId "chat" enableTrace
      = chatBranch a ext store
          (sessionThread store (resolveSessionId sessionId ext.freshId)) message
          (resolveSessionId sessionId ext.freshId) "chat" enableTrace := by
  unfold processMessageStream
  rw [if_neg (by decide : ¬((("chat" : String) == "agent") = true)),
    if_pos (by decide : (("chat" : String) == "chat") = true)]

lemma filter_done_append (pre : List StreamFrame) (last : StreamFrame)
    (hpre : ∀ f ∈ pre, f.is_done = false) (hl : last.is_done = true) :
    (pre ++ [last]).filter (fun f => f.is_done) = [last] := by
  rw [List.filter_append,
    List.filter_eq_nil_iff.mpr (fun f hf => by simp [hpre f hf])]
  simp [hl]

/- ===== Concrete fixtures for witnesses and counterexamples ===== -/

/-- An agent whose chat service and simple assistant are available. -/
def aStd : AgentFields := ⟨true, true, false⟩

/-- A request environment whose chat generator echoes one delta and returns
the thread extended with the exchange. -/
def extOkRun : ReqExt :=
  ⟨false, "fresh-id", none,
   fun t m => ⟨[⟨some "pong", some (t ++ [m, "pong"])⟩], none⟩,
   fun _ => .ok [], none⟩

/-- A request environment whose chat generator raises `boom` before
producing any item. -/
def extFailBoom : ReqExt :=
  ⟨false, "fresh-id2", none,
   fun _ _ => ⟨[], some ⟨false, "boom"⟩⟩,
   fun _ => .ok [], none⟩

/-- A request environment whose chat generator raises an exception whose
text carries a connectivity keyword. -/
def extConnTimeout : ReqExt :=
  ⟨false, "fresh-id3", none,
   fun _ _ => ⟨[], some ⟨false, "connection timeout"⟩⟩,
   fun _ => .ok [], none⟩

/- ===== Claim theorems ===== -/

/-- C1 (amended): for every request, process_message_stream emits a
possibly-empty prefix of frames with is_done=false followed by exactly one
terminal frame with is_done=true — even when the generation fails — and
when the generation completed successfully the terminal frame has empty
content.  (The original claim additionally asserted empty content on the
terminal frame of failing requests, which is false: see the
counterexample.) -/
theorem c1_stream_framing (a : AgentFields) (ext : ReqExt) (store : SessionStore)
    (message : String) (sessionId : Option String) (mode : String)
    (enableTrace : Bool) :
    ∃ pre last,
      (processMessageStream a ext store message sessionId mode enableTrace).frames
        = pre ++ [last]
      ∧ (∀ f ∈ pre, f.is_done = false)
      ∧ last.is_done = true
      ∧ ((processMessageStream a ext store message sessionId mode enableTrace).frames.filter
            (fun f => f.is_done)).length = 1
      ∧ ((processMessageStream a ext store message sessionId mode enableTrace).completed = true
          → last.content = "") := by
  obtain ⟨⟨pre, last, hf, hpre, hdone, hsid, hmode, hcomp⟩, _, _⟩ :=
    process_inv a ext store message sessionId mode enableTrace
  refine ⟨pre, last, hf, fun f hf2 => (hpre f hf2).1, hdone, ?_,
    fun h => by rw [hcomp h]; rfl⟩
  rw [hf, filter_done_append pre last (fun f hf2 => (hpre f hf2).1) hdone]
  rfl

/-- C1 witness: a successful concrete chat run satisfying the hypothesis of
the success-content clause. -/
theorem c1_stream_framing_witness :
    (processMessageStream aStd extOkRun [] "hi" (some "s1") "chat" false).completed = true
    ∧ ∃ pre last,
        (processMessageStream aStd extOkRun [] "hi" (some "s1") "chat" false).frames
          = pre ++ [last]
        ∧ (∀ f ∈ pre, f.is_done = false)
        ∧ last.is_done = true
        ∧ ((processMessageStream aStd extOkRun [] "hi" (some "s1") "chat" false).frames.filter
              (fun f => f.is_done)).length = 1
        ∧ ((processMessageStream aStd extOkRun [] "hi" (some "s1") "chat" false).completed = true
            → last.content = "") :=
  ⟨by decide, c1_stream_framing aStd extOkRun [] "hi" (some "s1") "chat" false⟩

/-- C1 counterexample: a failing chat generation — the last (and only)
frame has is_done=true but carries the diagnostic message, not empty
content, contradicting the claim that the last frame has empty content
even when the generation fails. -/
theorem c1_counterexample :
    (processMessageStream aStd extFailBoom [] "hi" (some "s1") "chat" false).frames
      = [⟨chatModeErrorMsg "boom", "s1", true, "chat", none⟩]
    ∧ chatModeErrorMsg "boom" ≠ "" :=
  ⟨by decide, by decide⟩

/-- C4: the session store is unchanged on every path that does not reach
the post-streaming block (every failure, invalid mode, and every
error-terminal branch), and is replaced at exactly the session
key when the generation completes successfully. -/
theorem c4_store_atomicity (a : AgentFields) (ext : ReqExt) (store : SessionStore)
    (message : String) (sessionId : Option String) (mode : String)
    (enableTrace : Bool) :
    ((processMessageStream a ext store message sessionId mode enableTrace).completed = false
      → (processMessageStream a ext store message sessionId mode enableTrace).store = store)
    ∧ ((processMessageStream a ext store message sessionId mode enableTrace).completed = true
      → ∃ t, (processMessageStream a ext store message sessionId mode enableTrace).store
          = SessionStore.put store (resolveSessionId sessionId ext.freshId) t) :=
  ⟨(process_inv a ext store message sessionId mode enableTrace).2.1,
   (process_inv a ext store message sessionId mode enableTrace).2.2⟩

/-- C4 witness: a concrete failing generation leaves the store unchanged. -/
theorem c4_store_atomicity_witness :
    (processMessageStream aStd extFailBoom [] "hi" (some "s1") "chat" false).completed = false
    ∧ (processMessageStream aStd extFailBoom [] "hi" (some "s1") "chat" false).store = [] :=
  ⟨by decide,
   (c4_store_atomicity aStd extFailBoom [] "hi" (some "s1") "chat" false).1 (by decide)⟩

/-- C2 (amended): every exception raised while consuming the upstream
sequence produces exactly one terminal frame carrying a human-readable
localized diagnostic and is_done=true, and no raw exception reaches the
wire (the handler is total); however the connectivity/agent/generic
classification of the outer handler is not applied to these exceptions —
chat-mode consumption errors always get the fixed chat-mode message and
agent-mode consumption errors the fixed agent-communication message. -/
theorem c2_error_frames (a : AgentFields) (ext : ReqExt) (store : SessionStore)
    (message sid : String) (enableTrace : Bool) (e : Exn) (msgs : List String) :
    (a.simpleAiAssistant = true →
      (ext.chatRun (sessionThread store sid) message).exn = some e →
      (processMessageStream a ext store message (some sid) "chat" enableTrace).frames.filter
          (fun f => f.is_done)
        = [mkFrame (chatModeErrorMsg e.msg) sid true "chat"])
    ∧ (ext.useAzureAiAgent = true → a.hasFoundryAgent = true →
      ext.agentRun message = AgentRunResult.exnLate msgs e →
      (processMessageStream a ext store message (some sid) "agent" enableTrace).frames.filter
          (fun f => f.is_done)
        = [mkFrame (agentCommErrorMsg e.msg) sid true "agent"]) := by
  constructor
  · intro hassist hexn
    rw [process_chat_eq]
    unfold chatBranch
    simp only [resolveSessionId] at hexn ⊢
    rw [if_pos hassist]
    unfold chatConsume
    simp only [hexn]
    exact filter_done_append _ _ (fun f hf => (chatFrames_mem _ _ _ f hf).1) rfl
  · intro hU hF hR
    rw [process_agent_eq]
    unfold agentBranch
    simp only [resolveSessionId, hU, hF, Bool.not_true, Bool.false_eq_true,
      if_false, hR]
    exact filter_done_append _ _ (fun f hf => (mapFrames_mem _ _ _ f hf).1) rfl

/-- C2 witness: a concrete chat-mode upstream failure discharging the first
clause. -/
theorem c2_error_frames_witness :
    aStd.simpleAiAssistant = true
    ∧ (extFailBoom.chatRun (sessionThread [] "s9") "hello").exn = some ⟨false, "boom"⟩
    ∧ (processMessageStream aStd extFailBoom [] "hello" (some "s9") "chat" false).frames.filter
        (fun f => f.is_done) = [mkFrame (chatModeErrorMsg "boom") "s9" true "chat"] :=
  ⟨rfl, rfl,
   (c2_error_frames aStd extFailBoom [] "hello" "s9" false ⟨false, "boom"⟩ []).1 rfl rfl⟩

/-- C2 counterexample: an upstream chat-mode exception whose text carries a
connectivity keyword is NOT classified — the emitted terminal frame is the
fixed chat-mode message, which does not carry the connectivity marker and
differs from what the classifier would produce. -/
theorem c2_counterexample :
    (processMessageStream aStd extConnTimeout [] "hi" (some "s1") "chat" false).frames
      = [⟨chatModeErrorMsg "connection timeout", "s1", true, "chat", none⟩]
    ∧ pyIn "connection" (pyLower "connection timeout") = true
    ∧ pyIn "接続エラー" (chatModeErrorMsg "connection timeout") = false
    ∧ chatModeErrorMsg "connection timeout" ≠ classifyError "connection timeout" "chat" :=
  ⟨by decide, by decide, by decide, by decide⟩

/-- C3: the routing classification of ProxyMiddleware.dispatch is a total
deterministic function of (path, upgrade header): every request maps to
exactly one of the four route classes, and the literal /chat/stream path
is always classified chat-stream-passthrough (handed to the backend
handler), never captured by the generic buffered proxy. -/
theorem c3_routing_total :
    (∀ path hdr : String,
        classifyRequest path hdr = RouteClass.apiPassthrough
      ∨ classifyRequest path hdr = RouteClass.chatStreamPassthrough
      ∨ classifyRequest path hdr = RouteClass.websocketForward
      ∨ classifyRequest path hdr = RouteClass.bufferedProxy)
    ∧ (∀ hdr : String,
        classifyRequest "/chat/stream" hdr = RouteClass.chatStreamPassthrough) := by
  constructor
  · intro path hdr
    cases h : classifyRequest path hdr with
    | apiPassthrough => exact Or.inl rfl
    | chatStreamPassthrough => exact Or.inr (Or.inl rfl)
    | websocketForward => exact Or.inr (Or.inr (Or.inl rfl))
    | bufferedProxy => exact Or.inr (Or.inr (Or.inr rfl))
  · intro hdr
    unfold classifyRequest
    rw [if_neg (by decide), if_pos (by decide)]

lemma process_chat_store (a : AgentFields) (ext : ReqExt) (store : SessionStore)
    (message sid : String) (enableTrace : Bool)
    (hassist : a.simpleAiAssistant = true)
    (hok : (ext.chatRun (sessionThread store sid) message).exn = none) :
    (processMessageStream a ext store message (some sid) "chat" enableTrace).store
      = SessionStore.put store sid
          (chatFinalThread (ext.chatRun (sessionThread store sid) message).items
            (sessionThread store sid)) := by
  rw [process_chat_eq]
  unfold chatBranch
  simp only [resolveSessionId] at hok ⊢
  rw [if_pos hassist]
  unfold chatConsume
  simp only [hok]

/-- C5 (amended): the backend starts in a degraded state on missing
credentials or failed agent initialization — the health endpoint always
answers (healthy or degraded) and the process does not crash; with missing
credentials the global agent stays None and the first /chat/stream request
is rejected with a descriptive HTTP 500 error (not a terminal frame);
with a failed initialization after the agent object was constructed, the
first chat request yields a single descriptive terminal frame. -/
theorem c5_degraded_startup (apiKeyPresent endpointPresent : Bool) (init : InitOutcome)
    (ext : ReqExt) (store : SessionStore) (req : ChatRequest) :
    ((health_check (startup_event apiKeyPresent endpointPresent init)).status = "healthy"
      ∨ (health_check (startup_event apiKeyPresent endpointPresent init)).status = "degraded")
    ∧ (apiKeyPresent = false →
        (chat_stream (startup_event apiKeyPresent endpointPresent init) ext store req).fst
          = ChatStreamResponse.httpError 500 agentNotInitDetail)
    ∧ (startup_event apiKeyPresent endpointPresent init = some ⟨false, false, false⟩ →
        req.mode = "chat" →
        (chat_stream (startup_event apiKeyPresent endpointPresent init) ext store req).fst
          = ChatStreamResponse.stream
              [⟨chatServiceNotInitMsg, resolveSessionId req.session_id ext.freshId,
                true, "chat", none⟩]) := by
  refine ⟨?_, ?_, ?_⟩
  · cases startup_event apiKeyPresent endpointPresent init with
    | some f => exact Or.inl rfl
    | none => exact Or.inr rfl
  · intro hk
    have hnone : startup_event apiKeyPresent endpointPresent init = none := by
      simp [startup_event, hk]
    rw [hnone]
    rfl
  · intro hs hm
    rw [hs]
    unfold chat_stream
    rw [hm]
    dsimp only
    rw [process_chat_eq]
    unfold chatBranch
    simp [mkFrame]

/-- C5 witness: concrete failed initialization leaving a degraded agent
object; the chat request yields the descriptive terminal frame. -/
theorem c5_degraded_startup_witness :
    startup_event true true (InitOutcome.failed ⟨true, "init failed"⟩ ⟨false, false, false⟩)
        = some ⟨false, false, false⟩
    ∧ (chat_stream (startup_event true true
          (InitOutcome.failed ⟨true, "init failed"⟩ ⟨false, false, false⟩))
        extOkRun [] ⟨"hi", none, "chat", false⟩).fst
        = ChatStreamResponse.stream
            [⟨chatServiceNotInitMsg,
              resolveSessionId (none : Option String) extOkRun.freshId,
              true, "chat", none⟩] :=
  ⟨by decide,
   (c5_degraded_startup true true
      (InitOutcome.failed ⟨true, "init failed"⟩ ⟨false, false, false⟩)
      extOkRun [] ⟨"hi", none, "chat", false⟩).2.2 (by decide) rfl⟩

/-- C5 counterexample: with missing credentials the first generation
request is answered with HTTP 500 (a non-stream response carrying a
descriptive detail), not with a terminal stream frame, while health is
reachable and reports degraded. -/
theorem c5_counterexample :
    (chat_stream (startup_event false true (InitOutcome.ok aStd)) extOkRun []
        ⟨"hi", none, "chat", false⟩).fst
      = ChatStreamResponse.httpError 500 agentNotInitDetail
    ∧ ChatStreamResponse.isStream
        ((chat_stream (startup_event false true (InitOutcome.ok aStd)) extOkRun []
          ⟨"hi", none, "chat", false⟩).fst) = false
    ∧ health_check (startup_event false true (InitOutcome.ok aStd)) = ⟨"degraded", false⟩ :=
  ⟨by decide, by decide, by decide⟩

/-- C6 (amended): when session_id is absent (None), the generated fresh id
is used as the session key, a new empty Thread is used when the fresh id
is unknown to the store, and the fresh id is attached to every emitted
frame.  (The original claim also covered the empty string, which the code
does not regenerate: see the counterexample.) -/
theorem c6_fresh_session (a : AgentFields) (ext : ReqExt) (store : SessionStore)
    (message mode : String) (enableTrace : Bool)
    (h : SessionStore.get store ext.freshId = none) :
    (∀ f ∈ (processMessageStream a ext store message none mode enableTrace).frames,
        f.session_id = ext.freshId)
    ∧ sessionThread store (resolveSessionId none ext.freshId) = [] := by
  constructor
  · obtain ⟨⟨pre, last, hf, hpre, _, hsid, _, _⟩, _, _⟩ :=
      process_inv a ext store message none mode enableTrace
    intro f hmem
    rw [hf] at hmem
    rcases List.mem_append.mp hmem with hmem | hmem
    · exact (hpre f hmem).2.1
    · rw [List.mem_singleton.mp hmem]
      exact hsid
  · simp [resolveSessionId, sessionThread, h]

/-- C6 witness: fresh id unknown to an empty store. -/
theorem c6_fresh_session_witness :
    SessionStore.get [] extOkRun.freshId = none
    ∧ ((∀ f ∈ (processMessageStream aStd extOkRun [] "hi" none "chat" false).frames,
          f.session_id = extOkRun.freshId)
       ∧ sessionThread [] (resolveSessionId none extOkRun.freshId) = []) :=
  ⟨rfl, c6_fresh_session aStd extOkRun [] "hi" "chat" false rfl⟩

/-- C6 counterexample: an empty-string session_id is NOT replaced by a
fresh id — every emitted frame carries the empty string, not the fresh
uuid value. -/
theorem c6_counterexample :
    (processMessageStream aStd extOkRun [] "hi" (some "") "chat" false).frames ≠ []
    ∧ (∀ f ∈ (processMessageStream aStd extOkRun [] "hi" (some "") "chat" false).frames,
        f.session_id = "")
    ∧ ¬ (∀ f ∈ (processMessageStream aStd extOkRun [] "hi" (some "") "chat" false).frames,
        f.session_id = extOkRun.freshId) :=
  ⟨by decide, by decide, by decide⟩

/-- C7: session continuity — after a successful chat request with message
"ping" and session id "s1", the thread that a second request with the same
session id would consume (the stored thread) contains "ping", provided the
upstream generator final thread contains the exchanged message (the
UpstreamGenerator contract of the spec, an external collaborator). -/
theorem c7_session_continuity (a : AgentFields) (ext : ReqExt) (store : SessionStore)
    (enableTrace : Bool)
    (hassist : a.simpleAiAssistant = true)
    (hok : (ext.chatRun (sessionThread store "s1") "ping").exn = none)
    (hmem : "ping" ∈ chatFinalThread (ext.chatRun (sessionThread store "s1") "ping").items
        (sessionThread store "s1")) :
    "ping" ∈ sessionThread
        (processMessageStream a ext store "ping" (some "s1") "chat" enableTrace).store
        "s1" := by
  rw [process_chat_store a ext store "ping" "s1" enableTrace hassist hok,
    sessionThread_put]
  exact hmem

/-- C7 witness: a concrete generator that appends the exchange to the
thread. -/
theorem c7_session_continuity_witness :
    aStd.simpleAiAssistant = true
    ∧ (extOkRun.chatRun (sessionThread [] "s1") "ping").exn = none
    ∧ "ping" ∈ sessionThread
        (processMessageStream aStd extOkRun [] "ping" (some "s1") "chat" false).store
        "s1" :=
  ⟨rfl, rfl, c7_session_continuity aStd extOkRun [] false rfl rfl (by decide)⟩

/-- C8: the session lookup is a pure read — for a known id it returns the
stored thread, and two consecutive lookups without an intervening put
return the same contents. -/
theorem c8_lookup_idempotent (store : SessionStore) (sid : String) (t : Thread)
    (h : SessionStore.get store sid = some t) :
    sessionThread store sid = t ∧ sessionThread store sid = sessionThread store sid :=
  ⟨by simp [sessionThread, h], rfl⟩

/-- C8 witness: a store with one known session. -/
theorem c8_lookup_idempotent_witness :
    SessionStore.get [("s1", ["ping"])] "s1" = some ["ping"]
    ∧ sessionThread [("s1", ["ping"])] "s1" = ["ping"] :=
  ⟨by decide, (c8_lookup_idempotent [("s1", ["ping"])] "s1" ["ping"] (by decide)).1⟩

/-- C10: for a mode that is neither "chat" nor "agent", the handler yields
exactly one frame naming the invalid mode with is_done=true, leaves the
store unchanged, does not reach the success block, and its behavior is
independent of the upstream generators (they are never called). -/
theorem c10_invalid_mode (a : AgentFields) (ext : ReqExt) (store : SessionStore)
    (message : String) (sessionId : Option String) (enableTrace : Bool) (mode : String)
    (h1 : (mode == "agent") = false) (h2 : (mode == "chat") = false) :
    (processMessageStream a ext store message sessionId mode enableTrace).frames
      = [⟨invalidModeMsg mode, resolveSessionId sessionId ext.freshId, true, mode, none⟩]
    ∧ (processMessageStream a ext store message sessionId mode enableTrace).store = store
    ∧ (processMessageStream a ext store message sessionId mode enableTrace).completed = false
    ∧ ∀ ext2 : ReqExt, ext2.freshId = ext.freshId →
        processMessageStream a ext2 store message sessionId mode enableTrace
          = processMessageStream a ext store message sessionId mode enableTrace := by
  have hred : ∀ e : ReqExt,
      processMessageStream a e store message sessionId mode enableTrace
        = ⟨[mkFrame (invalidModeMsg mode) (resolveSessionId sessionId e.freshId) true mode],
           store, false⟩ := by
    intro e
    unfold processMessageStream
    rw [if_neg (by simp [h1]), if_neg (by simp [h2])]
  refine ⟨?_, ?_, ?_, ?_⟩
  · rw [hred ext]; rfl
  · rw [hred ext]
  · rw [hred ext]
  · intro ext2 hf
    rw [hred ext2, hred ext, hf]

/-- C10 witness: the concrete invalid mode "foo". -/
theorem c10_invalid_mode_witness :
    (("foo" : String) == "agent") = false
    ∧ (("foo" : String) == "chat") = false
    ∧ (processMessageStream aStd extOkRun [] "hi" (some "s1") "foo" false).frames
        = [⟨invalidModeMsg "foo", resolveSessionId (some "s1") extOkRun.freshId,
            true, "foo", none⟩]
    ∧ (processMessageStream aStd extOkRun [] "hi" (some "s1") "foo" false).store = [] :=
  ⟨by decide, by decide,
   (c10_invalid_mode aStd extOkRun [] "hi" (some "s1") false "foo"
     (by decide) (by decide)).1,
   (c10_invalid_mode aStd extOkRun [] "hi" (some "s1") false "foo"
     (by decide) (by decide)).2.1⟩
